import Mathlib

/-!
Shallow embedding of `src/pytest_django/fixtures.py`.

The module under verification is the pytest-django fixture module: the
per-test database isolation machinery (the fixtures `db`, `transactional_db`,
`django_db_reset_sequences`, the autouse `_live_server_helper` and their common
worker `_django_db_fixture_helper`), the session-level database setup
orchestrator (`django_db_setup`, `_disable_native_migrations`), the parallel
worker suffix resolver (`_set_suffix_to_test_databases` and the tox/xdist
fixtures), the string importer `import_from_string`, and the query-count
assertion context `_assert_num_queries`.

Modelling conventions:
  * pytest's fixture mechanism is embedded explicitly: a test's declared
    fixture closure is a `TestRequest` record of booleans, fixture values are
    cached (each fixture body runs at most once per test, which is what
    `request.getfixturevalue` relies on), and `request.addfinalizer`
    registrations are accumulated in registration order; pytest executes them
    in LIFO order at test teardown regardless of the test outcome.
  * Python exceptions are an `Except PyErr` result; `PyErr` carries the
    exception class name and its message.
  * Django's `import_string` (an external collaborator) is modelled as a
    lookup in a finite environment of importable dotted paths; its error
    message is a function of the dotted path alone, as in Django, where the
    ImportError text mentions only the failing module/attribute path.
  * Observable side effects of the helper (blocker-gate unblock, test-case
    class setup, instance pre-setup) are recorded as an event log, and the
    registered finalizers (gate restore, class teardown, instance
    post-teardown) as a registration list.
-/

namespace PytestDjango

/-- A Python exception: class name and message. -/
structure PyErr where
  cls : String
  msg : String
deriving DecidableEq

/-- Executable substring test: `needle` occurs contiguously in `hay`. -/
def strContains (hay needle : String) : Bool :=
  (List.range (hay.length + 1)).any (fun i => needle.data.isPrefixOf (hay.data.drop i))

/-- The set of dotted paths that Django's import machinery can resolve.
This models the external import system; the code under test only observes
success or an ImportError. -/
structure ImportEnv where
  importable : List String
deriving DecidableEq

/-- Model of Django's `import_string` (external collaborator): resolves a
dotted path, or raises an ImportError whose message is built from the dotted
path only (Django's message names the module/attribute path, never any
pytest-django setting). -/
def import_string (env : ImportEnv) (dotted_path : String) : Except PyErr Unit :=
  if dotted_path ∈ env.importable then Except.ok ()
  else Except.error ⟨"ImportError", "No module named \x27" ++ dotted_path ++ "\x27"⟩

/-- `import_from_string` (fixtures.py lines 45-54): attempt the import and,
on ImportError, re-raise with a message naming the value and the API setting
that requested it. -/
def import_from_string (env : ImportEnv) (val setting_name : String) : Except PyErr Unit :=
  match import_string env val with
  | Except.ok u => Except.ok u
  | Except.error e =>
      Except.error ⟨"ImportError",
        "Could not import \x27" ++ val ++ "\x27 for API setting \x27" ++ setting_name
          ++ "\x27. " ++ e.cls ++ ": " ++ e.msg ++ "."⟩

/-- Observable setup-side actions of the database fixture machinery, in
execution order. `setUpClassEv`/`preSetupEv` carry the `transactional` and
`reset_sequences` parameters of the `_django_db_fixture_helper` call that
performed them. -/
inductive Event where
  | unblock
  | setUpClassEv (transactional resetSequences : Bool)
  | preSetupEv (transactional resetSequences : Bool)
  | liveServerSettingsEnable
deriving DecidableEq

/-- Finalizers registered through `request.addfinalizer`, in registration
order; pytest runs them in reverse (LIFO) order at teardown. -/
inductive FinalizerEv where
  | restore
  | tearDownClassFin (transactional resetSequences : Bool)
  | postTeardownFin (transactional resetSequences : Bool)
  | liveServerSettingsDisable
deriving DecidableEq

/-- The statically declared fixture closure of a test (`request.fixturenames`
membership for the fixtures relevant here) plus whether the test is a native
Django unittest (`is_django_unittest`). -/
structure TestRequest where
  hasDb : Bool
  hasTransactionalDb : Bool
  hasResetSequences : Bool
  hasLiveServer : Bool
  isDjangoUnittest : Bool
deriving DecidableEq

/-- Per-test execution state: the event log, the finalizer registrations, and
pytest's fixture-value cache (one flag per database fixture: a fixture body
runs at most once per test). -/
structure ExecState where
  events : List Event
  finalizers : List FinalizerEv
  dbDone : Bool
  transactionalDbDone : Bool
  resetSequencesDone : Bool
deriving DecidableEq

def ExecState.init : ExecState := ⟨[], [], false, false, false⟩

/-- Configuration sources consulted by `_django_db_fixture_helper`:
the two CLI options and the two environment variables for custom test-case
class paths (`none` models an unset/empty, i.e. falsy, value), plus
the environment of importable paths. -/
structure Config where
  transactionTestcaseClassOpt : Option String
  testcaseClassOpt : Option String
  djangoTransactionTestCaseClassEnv : Option String
  djangoTestCaseClassEnv : Option String
  importEnv : ImportEnv
deriving DecidableEq

/-- The `or`-chain for the transactional test-case class name
(fixtures.py lines 172-174). -/
def transactionalClassname (cfg : Config) : String :=
  match cfg.transactionTestcaseClassOpt with
  | some s => s
  | none =>
      match cfg.djangoTransactionTestCaseClassEnv with
      | some s => s
      | none => "django.test.TransactionTestCase"

/-- The `or`-chain for the plain test-case class name
(fixtures.py lines 176-178). -/
def plainClassname (cfg : Config) : String :=
  match cfg.testcaseClassOpt with
  | some s => s
  | none =>
      match cfg.djangoTestCaseClassEnv with
      | some s => s
      | none => "django.test.TestCase"

/-- `_django_db_fixture_helper` (fixtures.py lines 150-195).

Returns early (no side effects) for native Django unittests, and for a
non-transactional call when a live server is in the fixture closure.
Otherwise: unblocks the gate and registers its restore, resolves and imports
the configured test-case class (an import failure propagates here, after the
gate finalizer is registered), then runs the derived class's `setUpClass`,
registers `tearDownClass`, runs the instance `_pre_setup` and registers
`_post_teardown`.  The derived class's `reset_sequences` attribute is set
exactly when both parameters are true; the `databases` narrowing attribute
only parameterizes the external test-case class and is not an observable of
this model. -/
def _django_db_fixture_helper (cfg : Config) (req : TestRequest)
    (transactional resetSequences : Bool) (st : ExecState) : Except PyErr ExecState :=
  if req.isDjangoUnittest then Except.ok st
  else if !transactional && req.hasLiveServer then Except.ok st
  else
    let st1 : ExecState := { st with
      events := st.events ++ [Event.unblock],
      finalizers := st.finalizers ++ [FinalizerEv.restore] }
    let classname := if transactional then transactionalClassname cfg else plainClassname cfg
    match import_string cfg.importEnv classname with
    | Except.error e => Except.error e
    | Except.ok _ =>
        Except.ok { st1 with
          events := st1.events ++ [Event.setUpClassEv transactional resetSequences,
                                   Event.preSetupEv transactional resetSequences],
          finalizers := st1.finalizers ++ [FinalizerEv.tearDownClassFin transactional resetSequences,
                                           FinalizerEv.postTeardownFin transactional resetSequences] }

/-- Body of the `django_db_reset_sequences` fixture (fixtures.py lines
293-312), behind pytest's fixture cache. -/
def run_django_db_reset_sequences (cfg : Config) (req : TestRequest)
    (st : ExecState) : Except PyErr ExecState :=
  if st.resetSequencesDone then Except.ok st
  else _django_db_fixture_helper cfg req true true { st with resetSequencesDone := true }

/-- Body of the `transactional_db` fixture (fixtures.py lines 270-290),
behind pytest's fixture cache: forces `django_db_reset_sequences` when it is
in the fixture closure, then calls the helper with `transactional=True`. -/
def run_transactional_db (cfg : Config) (req : TestRequest)
    (st : ExecState) : Except PyErr ExecState :=
  if st.transactionalDbDone then Except.ok st
  else
    let st0 : ExecState := { st with transactionalDbDone := true }
    let step1 := if req.hasResetSequences
      then run_django_db_reset_sequences cfg req st0 else Except.ok st0
    match step1 with
    | Except.error e => Except.error e
    | Except.ok st1 => _django_db_fixture_helper cfg req true false st1

/-- Body of the `db` fixture (fixtures.py lines 240-267), behind pytest's
fixture cache: forces `django_db_reset_sequences` when it is in the fixture
closure; then, if `transactional_db` or `live_server` is in the closure,
forces `transactional_db`, otherwise calls the helper with
`transactional=False`. -/
def run_db (cfg : Config) (req : TestRequest) (st : ExecState) : Except PyErr ExecState :=
  if st.dbDone then Except.ok st
  else
    let st0 : ExecState := { st with dbDone := true }
    let step1 := if req.hasResetSequences
      then run_django_db_reset_sequences cfg req st0 else Except.ok st0
    match step1 with
    | Except.error e => Except.error e
    | Except.ok st1 =>
        if req.hasTransactionalDb || req.hasLiveServer
        then run_transactional_db cfg req st1
        else _django_db_fixture_helper cfg req false false st1

/-- Body of the autouse `_live_server_helper` fixture (fixtures.py lines
487-510): for a test whose closure contains `live_server`, dynamically forces
`transactional_db`, then enables the live server's modified settings and
registers their disable as a finalizer. -/
def run_live_server_helper (cfg : Config) (req : TestRequest)
    (st : ExecState) : Except PyErr ExecState :=
  if !req.hasLiveServer then Except.ok st
  else
    match run_transactional_db cfg req st with
    | Except.error e => Except.error e
    | Except.ok st1 =>
        Except.ok { st1 with
          events := st1.events ++ [Event.liveServerSettingsEnable],
          finalizers := st1.finalizers ++ [FinalizerEv.liveServerSettingsDisable] }

/-- One test's fixture setup phase: pytest instantiates every fixture in the
closure, the autouse helper first, then the requested database fixtures.
Because fixture values are cached and each body's branching depends only on
the static closure, the multiset of helper invocations does not depend on the
signature order; this driver fixes one canonical order. -/
def runTest (cfg : Config) (req : TestRequest) : Except PyErr ExecState := do
  let s1 ← run_live_server_helper cfg req ExecState.init
  let s2 ← if req.hasDb then run_db cfg req s1 else Except.ok s1
  let s3 ← if req.hasTransactionalDb then run_transactional_db cfg req s2 else Except.ok s2
  if req.hasResetSequences then run_django_db_reset_sequences cfg req s3 else Except.ok s3

/-- The `(transactional, reset_sequences)` parameters of each performed
instance pre-setup, in execution order: one entry per pre-setup/post-teardown
pair that the helper actually set up. -/
def setupPairs (st : ExecState) : List (Bool × Bool) :=
  st.events.filterMap (fun e => match e with
    | Event.preSetupEv t r => some (t, r)
    | _ => none)

/-- The parameters of each registered instance post-teardown finalizer. -/
def teardownPairs (st : ExecState) : List (Bool × Bool) :=
  st.finalizers.filterMap (fun f => match f with
    | FinalizerEv.postTeardownFin t r => some (t, r)
    | _ => none)

/-- pytest executes the registered finalizers in LIFO order at test teardown,
whether the test body passed or failed; the outcome argument is ignored. -/
def finalizersRunAfterTest (st : ExecState) (testFailed : Bool) : List FinalizerEv :=
  st.finalizers.reverse

/-- The state produced by a successful fixture setup phase. -/
def runTestState (cfg : Config) (req : TestRequest) : ExecState :=
  match runTest cfg req with
  | Except.ok st => st
  | Except.error _ => ExecState.init

/-- The message of the exception a fixture setup phase raised. -/
def runTestErrMsg (cfg : Config) (req : TestRequest) : String :=
  match runTest cfg req with
  | Except.ok _ => ""
  | Except.error e => e.msg

/-- An import environment in which the default Django test-case classes
resolve. -/
def defaultImportEnv : ImportEnv :=
  ⟨["django.test.TestCase", "django.test.TransactionTestCase"]⟩

/-- A configuration with no custom test-case class options set. -/
def defaultCfg : Config := ⟨none, none, none, none, defaultImportEnv⟩

/-! ### Parallel-suffix resolver -/

/-- One entry of `settings.DATABASES`: the backend engine, the database name,
and the configured `TEST` `NAME` (`none` models an absent `TEST` dict, an
absent `NAME` key or a `None` value; `some ""` models an empty string, which
is equally falsy in the source's `if not test_name` check). -/
structure DbSettingsEntry where
  engine : String
  name : String
  testName : Option String
deriving DecidableEq

/-- One iteration of the loop in `_set_suffix_to_test_databases`
(fixtures.py lines 222-234) applied to a single `DATABASES` entry. -/
def _set_suffix_one (suffix : String) (dbs : DbSettingsEntry) : DbSettingsEntry :=
  let test_name : Option String :=
    match dbs.testName with
    | none => none
    | some s => if s = "" then none else some s
  match test_name with
  | none =>
      if dbs.engine = "django.db.backends.sqlite3" then dbs
      else
        let t := "test_" ++ dbs.name
        if t = ":memory:" then dbs
        else { dbs with testName := some (t ++ "_" ++ suffix) }
  | some t =>
      if t = ":memory:" then dbs
      else { dbs with testName := some (t ++ "_" ++ suffix) }

/-- `_set_suffix_to_test_databases` (fixtures.py lines 219-234): suffix every
configured database in place. -/
def _set_suffix_to_test_databases (suffix : String) (databases : List DbSettingsEntry) :
    List DbSettingsEntry :=
  databases.map (_set_suffix_one suffix)

/-- `django_db_modify_db_settings_tox_suffix` (fixtures.py lines 57-64):
apply the tox environment name as a suffix when `TOX_PARALLEL_ENV` is set
and non-empty (falsy check in the source). -/
def django_db_modify_db_settings_tox_suffix (toxParallelEnv : Option String)
    (databases : List DbSettingsEntry) : List DbSettingsEntry :=
  match toxParallelEnv with
  | none => databases
  | some s => if s = "" then databases else _set_suffix_to_test_databases s databases

/-- `django_db_modify_db_settings_xdist_suffix` (fixtures.py lines 67-74):
apply the xdist worker id as a suffix when running under a worker. -/
def django_db_modify_db_settings_xdist_suffix (workerId : Option String)
    (databases : List DbSettingsEntry) : List DbSettingsEntry :=
  match workerId with
  | none => databases
  | some s => if s = "" then databases else _set_suffix_to_test_databases s databases

/-! ### Migration disabling and session database setup -/

/-- The value of `settings.MIGRATION_MODULES`: either an ordinary mapping
from app name to an optional migration-module path, or the
`DisableMigrations` sentinel installed by `_disable_native_migrations`. -/
inductive MigrationModules where
  | mapping (entries : List (String × Option String))
  | disableMigrations
deriving DecidableEq

/-- Membership test on the registry.  The sentinel's `__contains__`
(fixtures.py lines 203-204) returns `True` for every item. -/
def MigrationModules.containsApp : MigrationModules → String → Bool
  | MigrationModules.mapping es, app => es.any (fun p => p.1 == app)
  | MigrationModules.disableMigrations, _ => true

/-- Item lookup on the registry.  The sentinel's `__getitem__` (fixtures.py
lines 206-207) returns `None` (no migration module) for every item. -/
def MigrationModules.getItem : MigrationModules → String → Option String
  | MigrationModules.mapping es, app => (es.find? (fun p => p.1 == app)).bind (fun p => p.2)
  | MigrationModules.disableMigrations, _ => none

/-- The in-process Django state mutated by `_disable_native_migrations`:
the migration-module registry and whether `migrate.Command` has been replaced
by `MigrateSilentCommand`. -/
structure DjangoSettings where
  MIGRATION_MODULES : MigrationModules
  migrateCommandReplaced : Bool
deriving DecidableEq

/-- Observable of the stock migrate command's `handle`: the verbosity it
actually runs with. -/
def migrate_Command_handle (verbosity : Nat) : Nat := verbosity

/-- `MigrateSilentCommand.handle` (fixtures.py lines 211-214): forces
`verbosity` to 0 and delegates to the base command. -/
def MigrateSilentCommand_handle (verbosity : Nat) : Nat := migrate_Command_handle 0

/-- The verbosity the migrate command runs with under the given settings,
for a requested verbosity. -/
def effective_migrate_verbosity (s : DjangoSettings) (requested : Nat) : Nat :=
  if s.migrateCommandReplaced then MigrateSilentCommand_handle requested
  else migrate_Command_handle requested

/-- `_disable_native_migrations` (fixtures.py lines 198-216): installs the
`DisableMigrations` sentinel as `settings.MIGRATION_MODULES` and replaces
`migrate.Command` with `MigrateSilentCommand`.  No inverse of this operation
exists anywhere in the source. -/
def _disable_native_migrations (s : DjangoSettings) : DjangoSettings :=
  { s with MIGRATION_MODULES := MigrationModules.disableMigrations,
           migrateCommandReplaced := true }

/-- The keyword arguments `django_db_setup` passes to Django's
`setup_databases` (only `keepdb` is ever set; absent models `False`). -/
structure SetupDatabasesArgs where
  keepdb : Bool
deriving DecidableEq

/-- Observable outcome of the `django_db_setup` fixture body. -/
structure DjangoDbSetupResult where
  settings : DjangoSettings
  setup_databases_args : SetupDatabasesArgs
  teardownFinalizerRegistered : Bool
deriving DecidableEq

/-- `django_db_setup` (fixtures.py lines 107-147): disables native migrations
when `django_db_use_migrations` is false, passes `keepdb=True` to
`setup_databases` exactly when `django_db_keepdb` holds and
`django_db_createdb` does not, and registers the `teardown_database`
finalizer exactly when `django_db_keepdb` is false.  The actual schema
creation is delegated to Django and is not an observable of this model. -/
def django_db_setup (django_db_use_migrations django_db_keepdb django_db_createdb : Bool)
    (s : DjangoSettings) : DjangoDbSetupResult :=
  let s1 := if !django_db_use_migrations then _disable_native_migrations s else s
  let args : SetupDatabasesArgs := ⟨django_db_keepdb && !django_db_createdb⟩
  ⟨s1, args, !django_db_keepdb⟩

/-- The `teardown_database` finalizer (fixtures.py lines 135-144): invokes
Django's `teardown_databases` (external; its outcome is the argument) and, on
any exception, attaches a `PytestWarning` to the session node instead of
propagating.  The return type has no error alternative: the finalizer always
returns normally, yielding the list of warnings it emitted. -/
def teardown_database (teardownDatabasesOutcome : Except String Unit) : List String :=
  match teardownDatabasesOutcome with
  | Except.ok _ => []
  | Except.error exc => ["Error when trying to teardown test databases: " ++ exc]

/-- The Django settings in force once the session's finalizers have run:
`teardown_database` is the only session finalizer registered in the source
and it does not touch `settings.MIGRATION_MODULES` or `migrate.Command`, so
the settings of the setup result persist unchanged to session end. -/
def session_end_settings (r : DjangoDbSetupResult) : DjangoSettings := r.settings

/-! ### Query-count assertions -/

/-- `_assert_num_queries` (fixtures.py lines 513-551), reduced to its
observable verdict: given the config's verbosity, the expected count `num`,
the `exact` flag, the optional `info` string and the SQL texts captured from
the wrapped block, return `none` when the check passes and `some message`
(the `pytest.fail` message) when it fails. -/
def _assert_num_queries (verbosity : Nat) (num : Nat) (exact : Bool)
    (info : Option String) (captured_queries : List String) : Option String :=
  let verbose := verbosity > 0
  let num_performed := captured_queries.length
  let failed := if exact then num ≠ num_performed else num_performed > num
  if failed then
    let msg := "Expected to perform " ++ toString num ++ " queries "
      ++ (if exact then "" else "or less ")
      ++ "but "
      ++ (if num_performed = 1 then "1 was" else toString num_performed ++ " were")
      ++ " done"
    let msg := match info with
      | some i => msg ++ "\n" ++ i
      | none => msg
    let msg := if verbose then
        msg ++ "\n\nQueries:\n========\n\n" ++ String.intercalate "\n\n" captured_queries
      else msg ++ " (add -v option to show queries)"
    some msg
  else none

/-- The `django_assert_num_queries` fixture value (fixtures.py lines
554-556): `_assert_num_queries` with the config partially applied; `exact`
keeps its default `True`. -/
def django_assert_num_queries (verbosity : Nat) (num : Nat)
    (captured_queries : List String) : Option String :=
  _assert_num_queries verbosity num true none captured_queries

/-- The `django_assert_max_num_queries` fixture value (fixtures.py lines
559-561): `_assert_num_queries` with `exact=False`. -/
def django_assert_max_num_queries (verbosity : Nat) (num : Nat)
    (captured_queries : List String) : Option String :=
  _assert_num_queries verbosity num false none captured_queries

/-! ### Auxiliary facts -/

/-- A synthesized test database name, which always starts with `test_`, can
never equal the in-memory marker `:memory:`. -/
theorem test_prefixed_name_ne_memory (n : String) : "test_" ++ n ≠ ":memory:" := by
  intro h
  obtain ⟨l⟩ := n
  have h2 : ("test_" ++ String.mk l).data = (":memory:").data := congrArg String.data h
  have h3 : ("test_" ++ String.mk l).data
      = Char.ofNat 116 :: Char.ofNat 101 :: Char.ofNat 115 :: Char.ofNat 116
        :: Char.ofNat 95 :: l := rfl
  rw [h3] at h2
  have h4 : (":memory:").data
      = [Char.ofNat 58, Char.ofNat 109, Char.ofNat 101, Char.ofNat 109,
         Char.ofNat 111, Char.ofNat 114, Char.ofNat 121, Char.ofNat 58] := rfl
  rw [h4] at h2
  have h5 : Char.ofNat 116 = Char.ofNat 58 := by
    injection h2
  exact absurd h5 (by decide)

/-! ### Claim theorems -/

/-- C1 — code behavior at the failing input.  For the fixture set
`{db, django_db_reset_sequences}` (more than one database fixture, no
transactional_db, no live_server), the `db` body first forces the
reset-sequence fixture (one setup at level `(transactional, reset) =
(true, true)`) and then, because neither `transactional_db` nor `live_server`
is in the closure, additionally runs the plain-level helper: a second
pre-setup/post-teardown pair at level `(false, false)`.  Two pairs execute
and two isolation levels are entered, contradicting the claim (and the
fixture docstrings' single-winner precedence). -/
theorem C1_db_with_reset_sequences_double_setup :
    (runTest defaultCfg ⟨true, false, true, false, false⟩).isOk = true ∧
    setupPairs (runTestState defaultCfg ⟨true, false, true, false, false⟩)
      = [(true, true), (false, false)] ∧
    teardownPairs (runTestState defaultCfg ⟨true, false, true, false, false⟩)
      = [(true, true), (false, false)] ∧
    (setupPairs (runTestState defaultCfg ⟨true, false, true, false, false⟩)).length = 2 ∧
    setupPairs (runTestState defaultCfg ⟨false, true, true, false, false⟩)
      = [(true, true), (true, false)] :=
  ⟨rfl, rfl, rfl, rfl, rfl⟩

/-- C2: for a test whose fixture closure contains `live_server` and, among
the database fixtures, only `db`, the plain-level helper call no-ops (it
detects `live_server` in the closure), and exactly one setup runs, at the
transactional level: the effective isolation state is Transactional. -/
theorem C2_live_server_with_plain_db_is_transactional_once
    (cfg : Config)
    (h : import_string cfg.importEnv (transactionalClassname cfg) = Except.ok ()) :
    (∀ st : ExecState,
      _django_db_fixture_helper cfg ⟨true, false, false, true, false⟩ false false st
        = Except.ok st) ∧
    setupPairs (runTestState cfg ⟨true, false, false, true, false⟩) = [(true, false)] ∧
    (runTest cfg ⟨true, false, false, true, false⟩).isOk = true := by
  refine ⟨fun st => rfl, ?_, ?_⟩ <;>
    simp [runTestState, runTest, run_live_server_helper, run_transactional_db, run_db,
      run_django_db_reset_sequences, _django_db_fixture_helper, h, setupPairs,
      ExecState.init, Bind.bind, Except.bind, Except.isOk, Except.toBool]

/-- C2 witness: the hypothesis holds at the default configuration, where the
conclusion evaluates as stated. -/
theorem C2_witness :
    import_string defaultCfg.importEnv (transactionalClassname defaultCfg) = Except.ok () ∧
    setupPairs (runTestState defaultCfg ⟨true, false, false, true, false⟩) = [(true, false)] :=
  ⟨rfl, (C2_live_server_with_plain_db_is_transactional_once defaultCfg rfl).2.1⟩

/-- C3: suffixing a configured database — a configured (truthy, non
in-memory) test name gets `_<suffix>` appended; an unconfigured test name on
a non-sqlite backend is synthesized as `test_<dbname>_<suffix>`; in-memory
(`:memory:` test name, or sqlite without a test name) entries are unchanged;
and composing the tox resolver then the xdist resolver on base name `myapp`
with env `py311-django42` and worker `gw3` yields
`test_myapp_py311-django42_gw3`. -/
theorem C3_suffix_resolution :
    (∀ (suffix : String) (dbs : DbSettingsEntry) (t : String),
      dbs.testName = some t → t ≠ "" → t ≠ ":memory:" →
      (_set_suffix_one suffix dbs).testName = some (t ++ "_" ++ suffix)) ∧
    (∀ (suffix : String) (dbs : DbSettingsEntry),
      (dbs.testName = none ∨ dbs.testName = some "") →
      dbs.engine ≠ "django.db.backends.sqlite3" →
      (_set_suffix_one suffix dbs).testName = some ("test_" ++ dbs.name ++ "_" ++ suffix)) ∧
    (∀ (suffix : String) (dbs : DbSettingsEntry),
      dbs.testName = some ":memory:" ∨
        ((dbs.testName = none ∨ dbs.testName = some "") ∧
          dbs.engine = "django.db.backends.sqlite3") →
      _set_suffix_one suffix dbs = dbs) ∧
    django_db_modify_db_settings_xdist_suffix (some "gw3")
        (django_db_modify_db_settings_tox_suffix (some "py311-django42")
          [⟨"django.db.backends.postgresql", "myapp", none⟩,
           ⟨"django.db.backends.sqlite3", "ignored", none⟩,
           ⟨"django.db.backends.postgresql", "mem", some ":memory:"⟩])
      = [⟨"django.db.backends.postgresql", "myapp", some "test_myapp_py311-django42_gw3"⟩,
         ⟨"django.db.backends.sqlite3", "ignored", none⟩,
         ⟨"django.db.backends.postgresql", "mem", some ":memory:"⟩] := by
  refine ⟨?_, ?_, ?_, ?_⟩
  · intro suffix dbs t hsome hne hmem
    simp [_set_suffix_one, hsome, hne, hmem]
  · intro suffix dbs hnone heng
    rcases hnone with h | h <;>
      simp [_set_suffix_one, h, heng, test_prefixed_name_ne_memory dbs.name]
  · intro suffix dbs hcase
    rcases hcase with h | ⟨h1, h2⟩
    · simp [_set_suffix_one, h]
    · rcases h1 with h | h <;> simp [_set_suffix_one, h, h2]
  · rfl

/-- C3 witness: the hypotheses of the first three conjuncts discharged at
concrete entries. -/
theorem C3_witness :
    (_set_suffix_one "gw1"
      ⟨"django.db.backends.postgresql", "base", some "custom"⟩).testName
      = some "custom_gw1" ∧
    (_set_suffix_one "gw1"
      ⟨"django.db.backends.postgresql", "base", none⟩).testName
      = some "test_base_gw1" ∧
    _set_suffix_one "gw1" ⟨"django.db.backends.sqlite3", "base", none⟩
      = ⟨"django.db.backends.sqlite3", "base", none⟩ :=
  ⟨C3_suffix_resolution.1 "gw1" ⟨"django.db.backends.postgresql", "base", some "custom"⟩
      "custom" rfl (by decide) (by decide),
   C3_suffix_resolution.2.1 "gw1" ⟨"django.db.backends.postgresql", "base", none⟩
      (Or.inl rfl) (by decide),
   C3_suffix_resolution.2.2.1 "gw1" ⟨"django.db.backends.sqlite3", "base", none⟩
      (Or.inr ⟨Or.inl rfl, rfl⟩)⟩

/-- C4: for a test requesting only the sequence-reset fixture, the setup
actions occur in the order [blocker-gate unblock, class setup, instance
pre-setup]; the finalizers are registered as [gate restore, class teardown,
instance post-teardown], so their LIFO execution — which pytest performs
whether the test body passed or failed — runs [instance post-teardown, class
teardown, blocker-gate restore]. -/
theorem C4_reset_sequences_lifecycle_order :
    (runTest defaultCfg ⟨false, false, true, false, false⟩).isOk = true ∧
    (runTestState defaultCfg ⟨false, false, true, false, false⟩).events
      = [Event.unblock, Event.setUpClassEv true true, Event.preSetupEv true true] ∧
    (runTestState defaultCfg ⟨false, false, true, false, false⟩).finalizers
      = [FinalizerEv.restore, FinalizerEv.tearDownClassFin true true,
         FinalizerEv.postTeardownFin true true] ∧
    finalizersRunAfterTest (runTestState defaultCfg ⟨false, false, true, false, false⟩) true
      = [FinalizerEv.postTeardownFin true true, FinalizerEv.tearDownClassFin true true,
         FinalizerEv.restore] ∧
    finalizersRunAfterTest (runTestState defaultCfg ⟨false, false, true, false, false⟩) false
      = [FinalizerEv.postTeardownFin true true, FinalizerEv.tearDownClassFin true true,
         FinalizerEv.restore] :=
  ⟨rfl, rfl, rfl, rfl, rfl⟩

/-- C5: `django_db_setup` registers the database-teardown finalizer exactly
when `keepdb` is false, and the finalizer contains any teardown exception as
a single non-fatal session warning (it returns normally in every case, so a
teardown failure never fails the run). -/
theorem C5_teardown_registration_and_containment :
    (∀ (um kd cd : Bool) (s : DjangoSettings),
      (django_db_setup um kd cd s).teardownFinalizerRegistered = true ↔ kd = false) ∧
    (∀ exc : String,
      teardown_database (Except.error exc)
        = ["Error when trying to teardown test databases: " ++ exc]) ∧
    (∀ exc : String,
      strContains ((teardown_database (Except.error exc)).headD "")
        "Error when trying to teardown test databases" = true) ∧
    teardown_database (Except.ok ()) = [] := by
  refine ⟨?_, fun exc => rfl, ?_, rfl⟩
  · intro um kd cd s
    cases kd <;> simp [django_db_setup]
  · intro exc
    have h : (teardown_database (Except.error exc)).headD ""
        = "Error when trying to teardown test databases: " ++ exc := rfl
    rw [h]
    have h2 : ("Error when trying to teardown test databases: " ++ exc).data
        = ("Error when trying to teardown test databases").data
          ++ ((": " ++ exc).data) := by
      obtain ⟨l⟩ := exc
      rfl
    simp only [strContains, List.any_eq_true, List.mem_range, decide_eq_true_eq]
    refine ⟨0, by omega, ?_⟩
    rw [List.drop_zero, h2]
    exact List.isPrefixOf_iff_prefix.mpr (List.prefix_append _ _)

/-- C6 — code behavior at the failing input.  With a custom plain test-case
class configured as the unimportable path `no.such.Class`, fixture setup for
a `db`-requesting test does fail fast, but the helper calls Django's raw
`import_string`, whose ImportError message names only the dotted path and
not the setting that requested it; the file's own `import_from_string`,
which does produce a message naming both, is never called by the helper. -/
theorem C6_import_error_lacks_setting_name :
    (runTest ⟨none, some "no.such.Class", none, none, defaultImportEnv⟩
      ⟨true, false, false, false, false⟩).isOk = false ∧
    strContains (runTestErrMsg ⟨none, some "no.such.Class", none, none, defaultImportEnv⟩
      ⟨true, false, false, false, false⟩) "no.such.Class" = true ∧
    strContains (runTestErrMsg ⟨none, some "no.such.Class", none, none, defaultImportEnv⟩
      ⟨true, false, false, false, false⟩) "testcase_class" = false ∧
    (match import_from_string defaultImportEnv "no.such.Class" "testcase_class" with
      | Except.error e => strContains e.msg "no.such.Class" && strContains e.msg "testcase_class"
      | Except.ok _ => false) = true := by
  refine ⟨rfl, by decide, by decide, by decide⟩

/-- C7 counterexample: starting from an ordinary migration-module registry,
running the session setup with `use_migrations = False` and letting the
session's finalizers run leaves the sentinel installed: the registry is not
restored to the original, because no restore operation exists in the
source. -/
theorem C7_counterexample_no_restore :
    session_end_settings (django_db_setup false false false
        ⟨MigrationModules.mapping [("myapp", some "myapp.migrations")], false⟩)
      ≠ ⟨MigrationModules.mapping [("myapp", some "myapp.migrations")], false⟩ ∧
    (session_end_settings (django_db_setup false false false
        ⟨MigrationModules.mapping [("myapp", some "myapp.migrations")], false⟩)).MIGRATION_MODULES
      = MigrationModules.disableMigrations := by
  refine ⟨by decide, rfl⟩

/-- C7 amended: enabling `use_migrations=False` installs the sentinel
registry for the remainder of the session — there is no disable/restore
operation, so at session end the registry is still the sentinel; when
`use_migrations` stays true the settings are untouched.  The mutation lives
only in the in-process settings object. -/
theorem C7_sentinel_session_scoped :
    (∀ (kd cd : Bool) (s : DjangoSettings),
      (session_end_settings (django_db_setup false kd cd s)).MIGRATION_MODULES
        = MigrationModules.disableMigrations) ∧
    (∀ (kd cd : Bool) (s : DjangoSettings),
      session_end_settings (django_db_setup true kd cd s) = s) := by
  constructor <;> intro kd cd s <;>
    simp [django_db_setup, session_end_settings, _disable_native_migrations]

/-- C8: the `DisableMigrations` sentinel reports every app name as present
and maps every app name to `None`; `_disable_native_migrations` installs it
and replaces the migrate command; and the replaced migrate command runs with
verbosity 0 regardless of the requested verbosity. -/
theorem C8_sentinel_and_silent_migrate :
    (∀ app : String,
      MigrationModules.containsApp MigrationModules.disableMigrations app = true ∧
      MigrationModules.getItem MigrationModules.disableMigrations app = none) ∧
    (∀ s : DjangoSettings,
      (_disable_native_migrations s).MIGRATION_MODULES = MigrationModules.disableMigrations ∧
      (_disable_native_migrations s).migrateCommandReplaced = true) ∧
    (∀ (s : DjangoSettings) (v : Nat),
      effective_migrate_verbosity (_disable_native_migrations s) v = 0) ∧
    (∀ v : Nat, MigrateSilentCommand_handle v = 0) := by
  refine ⟨fun app => ⟨rfl, rfl⟩, fun s => ⟨rfl, rfl⟩, fun s v => rfl, fun v => rfl⟩

/-- C9: in exact mode the query assertion passes exactly when the wrapped
block performed `num` queries; for `num = 2` and 3 performed queries the
failure message contains `Expected to perform 2 queries but 3 were`; with
verbose mode off it appends the hint to enable `-v` (and not the SQL), and
with verbose mode on it appends the full list of executed statements. -/
theorem C9_assert_num_queries_exact :
    (∀ (v n : Nat) (info : Option String) (qs : List String),
      _assert_num_queries v n true info qs = none ↔ qs.length = n) ∧
    django_assert_num_queries 0 2 ["SELECT a", "SELECT b"] = none ∧
    django_assert_num_queries 0 2 ["SELECT a", "SELECT b", "SELECT c"]
      = some "Expected to perform 2 queries but 3 were done (add -v option to show queries)" ∧
    django_assert_num_queries 1 2 ["SELECT a", "SELECT b", "SELECT c"]
      = some ("Expected to perform 2 queries but 3 were done\n\nQueries:\n========\n\n"
          ++ "SELECT a\n\nSELECT b\n\nSELECT c") ∧
    strContains ((django_assert_num_queries 0 2 ["SELECT a", "SELECT b", "SELECT c"]).getD "")
      "Expected to perform 2 queries but 3 were" = true ∧
    strContains ((django_assert_num_queries 1 2 ["SELECT a", "SELECT b", "SELECT c"]).getD "")
      "Expected to perform 2 queries but 3 were" = true ∧
    strContains ((django_assert_num_queries 0 2 ["SELECT a", "SELECT b", "SELECT c"]).getD "")
      "SELECT a" = false ∧
    strContains ((django_assert_num_queries 1 2 ["SELECT a", "SELECT b", "SELECT c"]).getD "")
      "SELECT a" = true := by
  refine ⟨?_, rfl, rfl, rfl, by decide, by decide, by decide, by decide⟩
  intro v n info qs
  by_cases h : n = qs.length <;> simp [_assert_num_queries, h] <;> omega

/-- C10: in non-exact (upper bound) mode the query assertion passes exactly
when the wrapped block performed at most `num` queries — so it fails exactly
when strictly more than `num` were performed, and a block performing exactly
`num` passes. -/
theorem C10_assert_max_num_queries_upper_bound :
    (∀ (v n : Nat) (info : Option String) (qs : List String),
      _assert_num_queries v n false info qs = none ↔ qs.length ≤ n) ∧
    (∀ (v n : Nat) (qs : List String),
      django_assert_max_num_queries v n qs = none ↔ qs.length ≤ n) ∧
    django_assert_max_num_queries 0 2 ["SELECT a", "SELECT b"] = none ∧
    (django_assert_max_num_queries 0 2 ["SELECT a", "SELECT b", "SELECT c"]).isSome = true := by
  have key : ∀ (v n : Nat) (info : Option String) (qs : List String),
      _assert_num_queries v n false info qs = none ↔ qs.length ≤ n := by
    intro v n info qs
    by_cases h : qs.length ≤ n <;> simp [_assert_num_queries, h] <;> omega
  exact ⟨key, fun v n qs => key v n none qs, rfl, rfl⟩

end PytestDjango
